import Mathlib

/-!
# Cerberus EchoSense — shallow embedding and verification

A shallow embedding of the Cerberus EchoSense backend
(`backend/ml_engine.py`, `backend/server.py`) in Lean 4, together with
theorems settling the spec claims about windowing, per-source adapters,
sensor fusion, broadcasting and the websocket endpoint.

Python floats are modelled as exact rationals (`ℚ`); Python `None` as
`Option.none`; `list.append` / `list.pop(0)` as list append / `List.tail`.
Stateful classes are modelled by explicit state passing: each method takes
the object state and returns the updated state together with its result.
`time.time()` is passed in as an explicit `now : ℚ` argument.
-/

/-- `TrackingSource` enum from `ml_engine.py`. -/
inductive TrackingSource where
  | CAMERA
  | WIFI_RSSI
  | WIFI_CSI
  | WIFI_MONITOR
  | FUSION
  | LOST
deriving DecidableEq, Repr

/-- The `.value` string of each `TrackingSource` member. -/
def TrackingSource.value : TrackingSource → String
  | .CAMERA => "camera"
  | .WIFI_RSSI => "wifi_rssi"
  | .WIFI_CSI => "wifi_csi"
  | .WIFI_MONITOR => "wifi_monitor"
  | .FUSION => "fusion"
  | .LOST => "lost"

/-- One pose entry `{'keypoints': [[x,y,conf],...], 'is_animal': b}`. -/
structure Pose where
  keypoints : List (ℚ × ℚ × ℚ)
  is_animal : Bool
deriving DecidableEq, Repr

/-- `DetectionResult` dataclass from `ml_engine.py`; field defaults mirror
the Python dataclass defaults (`None`, `"UNKNOWN"`, `0.0`, `False`). -/
structure DetectionResult where
  timestamp : ℚ
  source : TrackingSource
  motion_detected : Bool
  confidence : ℚ
  bboxes : Option (List (Int × Int × Int × Int)) := none
  class_ids : Option (List Int) := none
  class_names : Option (List String) := none
  tracking_ids : Option (List Int) := none
  poses : Option (List (Option Pose)) := none
  rssi : Option ℚ := none
  rssi_variance : Option ℚ := none
  csi_data : Option (List ℚ) := none
  activity : String := "UNKNOWN"
  activity_confidence : ℚ := 0
  out_of_frame : Bool := false
  handoff_active : Bool := false
deriving DecidableEq, Repr

/-- Mean of a list of rationals (`np.mean`); `0` on the empty list. -/
def listMean (l : List ℚ) : ℚ := l.sum / l.length

/-- Population variance (`np.var`, default `ddof=0`). -/
def npVar (l : List ℚ) : ℚ :=
  (l.map (fun x => (x - listMean l) ^ 2)).sum / l.length

/-- The shared sliding-window update used by every WiFi adapter:
`window.append(x); if len(window) > cap: window.pop(0)`. -/
def pushWindow {α : Type} (cap : Nat) (w : List α) (x : α) : List α :=
  if cap < (w ++ [x]).length then (w ++ [x]).tail else w ++ [x]

/-- `config['detection']['rssi']` fields used by `ESP8266RSSIModule`. -/
structure RSSIConfig where
  window_size : Nat
  variance_threshold : ℚ
deriving DecidableEq, Repr

/-- `ESP8266RSSIModule` state: its config and the sample window. -/
structure ESP8266RSSIModule where
  rssi_config : RSSIConfig
  window : List ℚ
deriving DecidableEq, Repr

/-- `ESP8266RSSIModule.process_rssi`: push into the window (evicting at
`window_size`); below 5 samples return a zero-confidence non-motion event
carrying only the raw value; otherwise threshold the window's population
variance, with `confidence = min(variance / 20.0, 1.0)`. -/
def ESP8266RSSIModule.process_rssi (m : ESP8266RSSIModule) (now : ℚ)
    (rssi : Int) : ESP8266RSSIModule × DetectionResult :=
  let window := pushWindow m.rssi_config.window_size m.window (rssi : ℚ)
  let m' : ESP8266RSSIModule := { m with window := window }
  if window.length < 5 then
    (m', { timestamp := now, source := TrackingSource.WIFI_RSSI,
           motion_detected := false, confidence := 0, rssi := some (rssi : ℚ) })
  else
    let variance := npVar window
    let motion : Bool := decide (m.rssi_config.variance_threshold < variance)
    let confidence := min (variance / 20) 1
    (m', { timestamp := now, source := TrackingSource.WIFI_RSSI,
           motion_detected := motion, confidence := confidence,
           rssi := some (rssi : ℚ), rssi_variance := some variance,
           activity := if motion then "WALKING" else "STILL" })

/-- `config['detection']['csi']` fields used by `ESP32CSIModule`. -/
structure CSIConfig where
  window_size : Nat
  motion_threshold : ℚ
deriving DecidableEq, Repr

/-- `ESP32CSIModule` state: its config and the window of vector samples. -/
structure ESP32CSIModule where
  csi_config : CSIConfig
  window : List (List ℚ)
deriving DecidableEq, Repr

/-- `ESP32CSIModule.process_csi`: pushes the vector sample into the window,
but computes `np.var(csi_data)` over the current sample's components only;
`confidence = min(variance / 1.0, 1.0)`, activity `"MOTION"`/`"CLEAR"`. -/
def ESP32CSIModule.process_csi (m : ESP32CSIModule) (now : ℚ)
    (csi_data : List ℚ) : ESP32CSIModule × DetectionResult :=
  let window := pushWindow m.csi_config.window_size m.window csi_data
  let variance := npVar csi_data
  let motion : Bool := decide (m.csi_config.motion_threshold < variance)
  let confidence := min (variance / 1) 1
  ({ m with window := window },
   { timestamp := now, source := TrackingSource.WIFI_CSI,
     motion_detected := motion, confidence := confidence,
     csi_data := some csi_data,
     activity := if motion then "MOTION" else "CLEAR" })

/-- `config['detection']['wifi_monitor']` fields used by `WiFiMonitorModule`. -/
structure WiFiMonitorConfig where
  packet_window : Nat
deriving DecidableEq, Repr

/-- `WiFiMonitorModule` state: config and per-packet RSSI window. -/
structure WiFiMonitorModule where
  config : WiFiMonitorConfig
  packets : List ℚ
deriving DecidableEq, Repr

/-- `WiFiMonitorModule.process_packet`: pushes `data.get('rssi', -100)`
into the packet window; variance over the window once more than 5 samples
are present, fixed threshold `10.0`, constant confidence `0.5`. -/
def WiFiMonitorModule.process_packet (m : WiFiMonitorModule) (now : ℚ)
    (rssi : Option ℚ) : WiFiMonitorModule × DetectionResult :=
  let packets := pushWindow m.config.packet_window m.packets (rssi.getD (-100))
  let variance := if 5 < packets.length then npVar packets else 0
  let motion : Bool := decide ((10 : ℚ) < variance)
  ({ m with packets := packets },
   { timestamp := now, source := TrackingSource.WIFI_MONITOR,
     motion_detected := motion, confidence := 1/2 })

/-- `config['fusion']` fields used by `SensorFusionEngine`. -/
structure FusionConfig where
  handoff_delay_ms : ℚ
deriving DecidableEq, Repr

/-- `SensorFusionEngine` state: config and nullable `handoff_start`. -/
structure SensorFusionEngine where
  config : FusionConfig
  handoff_start : Option ℚ
deriving DecidableEq, Repr

/-- `SensorFusionEngine.fuse`, value-level: takes the engine state, `now`,
and the two nullable latest events; returns the updated engine state and
the fused `DetectionResult`.  Mirrors the Python control flow: vision
motion wins immediately and clears `handoff_start`; vision non-motion sets
`handoff_start` (if unset) and hands off to a motion-positive WiFi event
only once `(now - handoff_start) * 1000` strictly exceeds
`handoff_delay_ms`; otherwise `cam or wifi or DetectionResult(now, LOST,
False, 0.0)` (a dataclass instance is always truthy, so `or` selects the
first non-`None`). -/
def SensorFusionEngine.fuse (e : SensorFusionEngine) (now : ℚ)
    (cam wifi : Option DetectionResult) :
    SensorFusionEngine × DetectionResult :=
  match cam with
  | some c =>
    if c.motion_detected then
      ({ e with handoff_start := none },
       { c with source := TrackingSource.FUSION })
    else
      let hs := e.handoff_start.getD now
      let e' : SensorFusionEngine := { e with handoff_start := some hs }
      if (now - hs) * 1000 > e.config.handoff_delay_ms then
        match wifi with
        | some w =>
          if w.motion_detected then
            (e', { w with handoff_active := true, out_of_frame := true,
                          source := TrackingSource.FUSION })
          else (e', c)
        | none => (e', c)
      else (e', c)
  | none =>
    match wifi with
    | some w => (e, w)
    | none =>
      (e, { timestamp := now, source := TrackingSource.LOST,
            motion_detected := false, confidence := 0 })

/-!
## Heap-level model of `fuse`

The Python `fuse` does not copy its arguments: `res = cam; res.source = ...`
mutates the very object the caller passed in.  To reason about this frame
effect we give a second, heap-level translation of the same source lines in
which `DetectionResult` objects live in an explicit heap and are passed by
reference; a write to a field is an in-place heap update at that reference.
-/

/-- A heap of `DetectionResult` objects; references are `Nat` indices below
`next`. -/
structure Heap where
  data : Nat → DetectionResult
  next : Nat

/-- In-place field update of the object at reference `r`. -/
def Heap.set (h : Heap) (r : Nat) (v : DetectionResult) : Heap :=
  { h with data := fun i => if i = r then v else h.data i }

/-- Allocate a fresh object (the `DetectionResult(...)` constructor call);
returns the updated heap and the fresh reference. -/
def Heap.alloc (h : Heap) (v : DetectionResult) : Heap × Nat :=
  ({ data := fun i => if i = h.next then v else h.data i, next := h.next + 1 },
   h.next)

/-- `SensorFusionEngine.fuse`, heap-level: arguments and result are
references into the heap.  Field assignments on `res` become `Heap.set` at
the argument's own reference, and the returned reference is that same
argument reference (no copy); only the synthetic LOST event allocates. -/
def SensorFusionEngine.fuseM (e : SensorFusionEngine) (now : ℚ) (h : Heap)
    (cam wifi : Option Nat) : SensorFusionEngine × Heap × Nat :=
  match cam with
  | some c =>
    let cv := h.data c
    if cv.motion_detected then
      ({ e with handoff_start := none },
       h.set c { cv with source := TrackingSource.FUSION }, c)
    else
      let hs := e.handoff_start.getD now
      let e' : SensorFusionEngine := { e with handoff_start := some hs }
      if (now - hs) * 1000 > e.config.handoff_delay_ms then
        match wifi with
        | some w =>
          let wv := h.data w
          if wv.motion_detected then
            (e', h.set w { wv with handoff_active := true, out_of_frame := true,
                                   source := TrackingSource.FUSION }, w)
          else (e', h, c)
        | none => (e', h, c)
      else (e', h, c)
  | none =>
    match wifi with
    | some w => (e, h, w)
    | none =>
      let p := h.alloc { timestamp := now, source := TrackingSource.LOST,
                         motion_detected := false, confidence := 0 }
      (e, p.1, p.2)

/-!
## Server model (`backend/server.py`)

`broadcast_detection` stores its argument into the module-level
`latest_detection`, serializes it once, sends the text to every client in
the registry, and removes the clients whose send raised.  Whether a given
client's send raises is environment behaviour, passed in as a `fails`
predicate on client ids.  Client sockets are modelled by id, with
`inbox id` the list of messages successfully written to that client.
-/

/-- The dict built by `serialize_detection_result` (one field per key). -/
structure SerializedDetection where
  timestamp : ℚ
  source : String
  motion : Bool
  confidence : ℚ
  bboxes : List (Int × Int × Int × Int)
  class_ids : List Int
  class_names : List String
  tracking_ids : List Int
  poses : List (Option Pose)
  rssi : Option ℚ
  rssi_var : Option ℚ
  csi : List ℚ
  activity : String
  activity_conf : ℚ
  out_of_frame : Bool
  handoff_active : Bool
deriving DecidableEq, Repr

/-- `serialize_detection_result`: `x or []` on the nullable list fields,
`source.value` for the enum, everything else copied through. -/
def serialize_detection_result (r : DetectionResult) : SerializedDetection :=
  { timestamp := r.timestamp, source := r.source.value,
    motion := r.motion_detected, confidence := r.confidence,
    bboxes := r.bboxes.getD [], class_ids := r.class_ids.getD [],
    class_names := r.class_names.getD [],
    tracking_ids := r.tracking_ids.getD [], poses := r.poses.getD [],
    rssi := r.rssi, rssi_var := r.rssi_variance, csi := r.csi_data.getD [],
    activity := r.activity, activity_conf := r.activity_confidence,
    out_of_frame := r.out_of_frame, handoff_active := r.handoff_active }

/-- The broadcast-side module state of `server.py`: `latest_detection`,
the `websocket_clients` registry (by id) and each client's delivered
messages. -/
structure HubState where
  latest_detection : Option DetectionResult
  registry : List Nat
  inbox : Nat → List SerializedDetection

/-- `broadcast_detection(result)`: set `latest_detection := result`,
serialize once, attempt a send to every client in the registry (a send to
client `i` raises exactly when `fails i`), and remove the failed clients
from the registry afterwards.  A failed send delivers nothing to that
client and does not affect the sends to the other clients. -/
def broadcast_detection (fails : Nat → Bool) (result : DetectionResult)
    (s : HubState) : HubState :=
  let message := serialize_detection_result result
  { latest_detection := some result,
    registry := s.registry.filter (fun i => !(fails i)),
    inbox := fun i =>
      if i ∈ s.registry ∧ fails i = false then s.inbox i ++ [message]
      else s.inbox i }

/-- A sequence of `broadcast_detection` calls, one per event in `results`;
`fails i j` says whether the send to client `i` raises on the `j`-th
publish of the sequence. -/
def publishAll (fails : Nat → Nat → Bool) (results : List DetectionResult)
    (s : HubState) : HubState :=
  match results with
  | [] => s
  | r :: rs =>
    publishAll (fun i j => fails i (j + 1)) rs
      (broadcast_detection (fun i => fails i 0) r s)

/-- One comma-separated field of an inbound UDP datagram after
`message.split(',')`: `some q` when Python `float(text)` succeeds with
value `q`, `none` when it raises `ValueError`. -/
def esp32_datagram_received (parts : List (Option ℚ)) : Option (List ℚ) :=
  if 64 ≤ parts.length then ((parts.drop 1).take 64).mapM id
  else none

/-- Whole-server state threaded through the listener callbacks. -/
structure ServerState where
  esp8266 : ESP8266RSSIModule
  esp32 : ESP32CSIModule
  fusion : SensorFusionEngine
  hub : HubState

/-- `ESP8266UDPProtocol.datagram_received` on a well-formed `RSS:<int>`
datagram (the extracted integer is passed in): run the RSSI adapter and
broadcast its raw result. -/
def serverRssStep (fails : Nat → Bool) (s : ServerState) (now : ℚ)
    (rssi : Int) : ServerState :=
  let p := s.esp8266.process_rssi now rssi
  { s with esp8266 := p.1, hub := broadcast_detection fails p.2 s.hub }

/-- `ESP32UDPProtocol.datagram_received`: guard `len(parts) >= 64`, parse
`parts[1:65]` as floats (any `ValueError` is caught and the packet
dropped), then run the CSI adapter and broadcast its raw result. -/
def serverCsiStep (fails : Nat → Bool) (s : ServerState) (now : ℚ)
    (parts : List (Option ℚ)) : ServerState :=
  match esp32_datagram_received parts with
  | some csi =>
    let p := s.esp32.process_csi now csi
    { s with esp32 := p.1, hub := broadcast_detection fails p.2 s.hub }
  | none => s

/-- The body of `camera_processing_loop` in hybrid mode, given the vision
adapter's event for this frame and the cached `_last_wifi_result` (read via
`getattr` with default `None`; no code ever assigns it): fuse, store and
broadcast the fused result. -/
def serverCameraStep (fails : Nat → Bool) (s : ServerState) (now : ℚ)
    (cam : DetectionResult) (wifi : Option DetectionResult) : ServerState :=
  let p := s.fusion.fuse now (some cam) wifi
  { s with fusion := p.1, hub := broadcast_detection fails p.2 s.hub }

/-- The `websocket_endpoint` handler for the literal client text
`get_latest`: when `latest_detection` is set, resend its serialization. -/
def handleGetLatest (s : ServerState) : Option SerializedDetection :=
  s.hub.latest_detection.map serialize_detection_result

/-- A concrete freshly-started server state (no samples yet, no stored
detection, empty subscriber registry), used to evaluate the theorems on
explicit inputs. -/
def serverState0 : ServerState :=
  { esp8266 := { rssi_config := { window_size := 50, variance_threshold := 3 },
                 window := [] },
    esp32 := { csi_config := { window_size := 100, motion_threshold := 1/2 },
               window := [] },
    fusion := { config := { handoff_delay_ms := 2000 }, handoff_start := none },
    hub := { latest_detection := none, registry := [], inbox := fun _ => [] } }

/-- Two clients (`1` and `2`) and no stored detection: the hub state used
to evaluate the broadcast theorems on explicit inputs. -/
def hub0 : HubState :=
  { latest_detection := none, registry := [1, 2], inbox := fun _ => [] }

/-- Concrete failure pattern: only client `2` fails, on the first
publish. -/
def failsW : Nat → Nat → Bool := fun i j => decide (i = 2 ∧ j = 0)

/-- First concrete event published when evaluating the broadcast
theorems. -/
def evW1 : DetectionResult :=
  { timestamp := 1, source := TrackingSource.LOST,
    motion_detected := false, confidence := 0 }

/-- Second concrete event published when evaluating the broadcast
theorems. -/
def evW2 : DetectionResult :=
  { timestamp := 2, source := TrackingSource.LOST,
    motion_detected := false, confidence := 0 }

/-- Concrete heap used to evaluate the heap-level theorems: object 0 a
motion-positive vision event, object 1 a no-motion vision event, object 2
a motion-positive WiFi event, object 3 an already handoff-tagged event. -/
def heapW : Heap :=
  { data := fun i =>
      if i = 0 then
        { timestamp := 1, source := TrackingSource.CAMERA,
          motion_detected := true, confidence := 1 }
      else if i = 1 then
        { timestamp := 1, source := TrackingSource.CAMERA,
          motion_detected := false, confidence := 0 }
      else if i = 2 then
        { timestamp := 1, source := TrackingSource.WIFI_RSSI,
          motion_detected := true, confidence := 1/2 }
      else
        { timestamp := 1, source := TrackingSource.FUSION,
          motion_detected := true, confidence := 1/2,
          out_of_frame := true, handoff_active := true },
    next := 4 }

/-!
## Sliding-window lemmas

Facts about the `append`-then-`pop(0)` update shared by the WiFi adapters.
-/

/-- One push preserves `length ≤ capacity`. -/
theorem pushWindow_length_le {α : Type} (cap : Nat) (w : List α) (x : α)
    (h : w.length ≤ cap) : (pushWindow cap w x).length ≤ cap := by
  unfold pushWindow
  split
  · simp only [List.length_tail, List.length_append, List.length_singleton]
    omega
  · next h' =>
    simp only [List.length_append, List.length_singleton]
    simp only [List.length_append, List.length_singleton, not_lt] at h'
    omega

/-- Any sequence of pushes starting from a window within capacity stays
within capacity. -/
theorem foldl_pushWindow_length_le {α : Type} (cap : Nat) (xs : List α) :
    ∀ w : List α, w.length ≤ cap →
      (List.foldl (pushWindow cap) w xs).length ≤ cap := by
  induction xs with
  | nil => intro w h; simpa using h
  | cons y ys ih =>
    intro w h
    rw [List.foldl_cons]
    exact ih _ (pushWindow_length_le _ _ _ h)

/-- While the window stays within capacity, pushes are plain appends. -/
theorem foldl_pushWindow_no_evict {α : Type} (cap : Nat) (xs : List α) :
    ∀ w : List α, w.length + xs.length ≤ cap →
      List.foldl (pushWindow cap) w xs = w ++ xs := by
  induction xs with
  | nil => intro w _; simp
  | cons y ys ih =>
    intro w h
    simp only [List.length_cons] at h
    have hp : pushWindow cap w y = w ++ [y] := by
      unfold pushWindow
      rw [if_neg]
      simp only [List.length_append, List.length_singleton, not_lt]
      omega
    rw [List.foldl_cons, hp, ih (w ++ [y])
      (by simp only [List.length_append, List.length_singleton]; omega)]
    simp

/-- Pushing a sequence that overflows a nonempty within-capacity window by
exactly one sample drops exactly the window's oldest element. -/
theorem foldl_pushWindow_evict {α : Type} (cap : Nat) (xs : List α) :
    ∀ w : List α, w ≠ [] → w.length ≤ cap →
      w.length + xs.length = cap + 1 →
      List.foldl (pushWindow cap) w xs = w.tail ++ xs := by
  induction xs with
  | nil =>
    intro w _ h1 h2
    exfalso
    simp only [List.length_nil, Nat.add_zero] at h2
    omega
  | cons y ys ih =>
    intro w hw h1 h2
    obtain ⟨a, as, rfl⟩ := List.exists_cons_of_ne_nil hw
    cases ys with
    | nil =>
      simp at h1 h2
      simp only [List.foldl_cons, List.foldl_nil]
      unfold pushWindow
      rw [if_pos (by simp; omega)]
      simp
    | cons z zs =>
      simp at h1 h2
      have hp : pushWindow cap (a :: as) y = (a :: as) ++ [y] := by
        unfold pushWindow
        rw [if_neg (by simp; omega)]
      rw [List.foldl_cons, hp,
        ih ((a :: as) ++ [y]) (by simp) (by simp; omega) (by simp; omega)]
      simp

/-!
## Claim theorems — fusion state machine
-/

/-- C2: for every fusion cycle where the latest vision event `c` exists
with `c.motion_detected = true`, regardless of the prior engine state
(hence of any number of prior no-detection cycles) and of the WiFi event,
`fuse` returns `c` re-tagged as FUSION-sourced and resets `handoff_start`
to `none`. -/
theorem C2_vision_reacquisition (e : SensorFusionEngine) (now : ℚ)
    (c : DetectionResult) (wifi : Option DetectionResult)
    (hc : c.motion_detected = true) :
    e.fuse now (some c) wifi =
      ({ e with handoff_start := none },
       { c with source := TrackingSource.FUSION }) := by
  simp [SensorFusionEngine.fuse, hc]

/-- Witness for C2 at a concrete engine state (`handoff_start` set from
five prior no-detection cycles) and concrete vision/WiFi events. -/
theorem C2_vision_reacquisition_witness :
    SensorFusionEngine.fuse ⟨⟨1000⟩, some 5⟩ 9
        (some { timestamp := 9, source := TrackingSource.CAMERA,
                motion_detected := true, confidence := 4/5 })
        (some { timestamp := 8, source := TrackingSource.WIFI_RSSI,
                motion_detected := true, confidence := 1/2 }) =
      (⟨⟨1000⟩, none⟩,
       { timestamp := 9, source := TrackingSource.FUSION,
         motion_detected := true, confidence := 4/5 }) :=
  C2_vision_reacquisition ⟨⟨1000⟩, some 5⟩ 9
    { timestamp := 9, source := TrackingSource.CAMERA,
      motion_detected := true, confidence := 4/5 }
    (some { timestamp := 8, source := TrackingSource.WIFI_RSSI,
            motion_detected := true, confidence := 1/2 }) rfl

/-- C3: in every fusion cycle where neither the reacquisition rule nor the
handoff rule returns, `fuse` returns the vision event if non-null, else
the WiFi event if non-null, else a synthetic LOST event with
`motion_detected = false` and `confidence = 0`. -/
theorem C3_fallthrough (e : SensorFusionEngine) (now : ℚ)
    (c w : DetectionResult) :
    (c.motion_detected = false →
        (now - e.handoff_start.getD now) * 1000 ≤ e.config.handoff_delay_ms →
        ∀ wifi : Option DetectionResult,
          (e.fuse now (some c) wifi).2 = c) ∧
    (c.motion_detected = false →
        (e.fuse now (some c) none).2 = c) ∧
    (c.motion_detected = false → w.motion_detected = false →
        (e.fuse now (some c) (some w)).2 = c) ∧
    ((e.fuse now none (some w)).2 = w) ∧
    ((e.fuse now none none).2 =
      { timestamp := now, source := TrackingSource.LOST,
        motion_detected := false, confidence := 0 }) := by
  refine ⟨?_, ?_, ?_, ?_, ?_⟩
  · intro hc hle wifi
    simp only [SensorFusionEngine.fuse, hc, Bool.false_eq_true, if_false]
    rw [if_neg (not_lt.mpr hle)]
  · intro hc
    simp only [SensorFusionEngine.fuse, hc, Bool.false_eq_true, if_false]
    split <;> rfl
  · intro hc hw
    simp only [SensorFusionEngine.fuse, hc, hw, Bool.false_eq_true, if_false]
    split <;> rfl
  · rfl
  · rfl

/-- Witness for C3: at concrete inputs, a waiting cycle returns the vision
event, a cycle with a non-motion WiFi event returns the vision event, and
the no-source cycle returns the synthetic LOST event. -/
theorem C3_fallthrough_witness :
    ((SensorFusionEngine.fuse ⟨⟨2000⟩, some 0⟩ 1
        (some { timestamp := 1, source := TrackingSource.CAMERA,
                motion_detected := false, confidence := 0 })
        (some { timestamp := 1, source := TrackingSource.WIFI_RSSI,
                motion_detected := true, confidence := 1 })).2 =
      { timestamp := 1, source := TrackingSource.CAMERA,
        motion_detected := false, confidence := 0 }) ∧
    ((SensorFusionEngine.fuse ⟨⟨2000⟩, some 0⟩ 9
        (some { timestamp := 9, source := TrackingSource.CAMERA,
                motion_detected := false, confidence := 0 })
        (some { timestamp := 9, source := TrackingSource.WIFI_RSSI,
                motion_detected := false, confidence := 0 })).2 =
      { timestamp := 9, source := TrackingSource.CAMERA,
        motion_detected := false, confidence := 0 }) ∧
    ((SensorFusionEngine.fuse ⟨⟨2000⟩, none⟩ 3 none none).2 =
      { timestamp := 3, source := TrackingSource.LOST,
        motion_detected := false, confidence := 0 }) := by
  refine ⟨?_, ?_, ?_⟩
  · exact (C3_fallthrough ⟨⟨2000⟩, some 0⟩ 1
      { timestamp := 1, source := TrackingSource.CAMERA,
        motion_detected := false, confidence := 0 }
      { timestamp := 1, source := TrackingSource.WIFI_RSSI,
        motion_detected := true, confidence := 1 }).1 rfl (by norm_num) _
  · exact (C3_fallthrough ⟨⟨2000⟩, some 0⟩ 9
      { timestamp := 9, source := TrackingSource.CAMERA,
        motion_detected := false, confidence := 0 }
      { timestamp := 9, source := TrackingSource.WIFI_RSSI,
        motion_detected := false, confidence := 0 }).2.2.1 rfl rfl
  · exact (C3_fallthrough ⟨⟨2000⟩, none⟩ 3
      { timestamp := 3, source := TrackingSource.CAMERA,
        motion_detected := false, confidence := 0 }
      { timestamp := 3, source := TrackingSource.WIFI_RSSI,
        motion_detected := false, confidence := 0 }).2.2.2.2

/-- C1 (amended): with `handoff_start` set at time `t`, the vision event
reporting no motion and the WiFi event reporting motion, the output equals
the vision event for every cycle with `(now - t) * 1000 ≤
handoff_delay_ms`, and switches to the WiFi event re-tagged FUSION-sourced
with `handoff_active = true` and `out_of_frame = true` exactly on the
cycles with `(now - t) * 1000` strictly greater than `handoff_delay_ms`
(the source compares with strict `>`, so the boundary cycle with elapsed
exactly equal to the delay still returns the vision event). -/
theorem C1_handoff_timing (e : SensorFusionEngine) (now t : ℚ)
    (c w : DetectionResult) (hs : e.handoff_start = some t)
    (hc : c.motion_detected = false) (hw : w.motion_detected = true) :
    ((now - t) * 1000 ≤ e.config.handoff_delay_ms →
        (e.fuse now (some c) (some w)).2 = c) ∧
    (e.config.handoff_delay_ms < (now - t) * 1000 →
        (e.fuse now (some c) (some w)).2 =
          { w with handoff_active := true, out_of_frame := true,
                   source := TrackingSource.FUSION }) := by
  constructor
  · intro h
    simp only [SensorFusionEngine.fuse, hc, hs, Bool.false_eq_true, if_false,
      Option.getD_some]
    rw [if_neg (not_lt.mpr h)]
  · intro h
    simp only [SensorFusionEngine.fuse, hc, hs, Bool.false_eq_true, if_false,
      Option.getD_some]
    rw [if_pos h]
    simp [hw]

/-- Witness for C1: with a 1000 ms delay and handoff started at `t = 0`,
the cycle at `now = 1/2` (500 ms elapsed) still returns the vision event,
and the cycle at `now = 2` (2000 ms elapsed) returns the WiFi event
re-tagged with both handoff flags. -/
theorem C1_handoff_timing_witness :
    ((SensorFusionEngine.fuse ⟨⟨1000⟩, some 0⟩ (1/2)
        (some { timestamp := 1/2, source := TrackingSource.CAMERA,
                motion_detected := false, confidence := 0 })
        (some { timestamp := 1/2, source := TrackingSource.WIFI_RSSI,
                motion_detected := true, confidence := 1/2 })).2 =
      { timestamp := 1/2, source := TrackingSource.CAMERA,
        motion_detected := false, confidence := 0 }) ∧
    ((SensorFusionEngine.fuse ⟨⟨1000⟩, some 0⟩ 2
        (some { timestamp := 2, source := TrackingSource.CAMERA,
                motion_detected := false, confidence := 0 })
        (some { timestamp := 2, source := TrackingSource.WIFI_RSSI,
                motion_detected := true, confidence := 1/2 })).2 =
      { timestamp := 2, source := TrackingSource.FUSION,
        motion_detected := true, confidence := 1/2,
        out_of_frame := true, handoff_active := true }) := by
  constructor
  · exact (C1_handoff_timing ⟨⟨1000⟩, some 0⟩ (1/2) 0
      { timestamp := 1/2, source := TrackingSource.CAMERA,
        motion_detected := false, confidence := 0 }
      { timestamp := 1/2, source := TrackingSource.WIFI_RSSI,
        motion_detected := true, confidence := 1/2 }
      rfl rfl rfl).1 (by norm_num)
  · exact (C1_handoff_timing ⟨⟨1000⟩, some 0⟩ 2 0
      { timestamp := 2, source := TrackingSource.CAMERA,
        motion_detected := false, confidence := 0 }
      { timestamp := 2, source := TrackingSource.WIFI_RSSI,
        motion_detected := true, confidence := 1/2 }
      rfl rfl rfl).2 (by norm_num)

/-- Counterexample to C1 as stated: with a 1000 ms delay, handoff started
at `t = 0`, vision reporting no motion and WiFi reporting motion, the
cycle at `now = 1` has elapsed time exactly `handoff_delay_ms`
(`(1 - 0) * 1000 ≥ 1000`), yet the output is still the vision event — its
source stays CAMERA and `handoff_active` stays `false` — not the WiFi
event re-tagged with `handoff_active = true` that the claim requires at
the first cycle with elapsed `≥` the delay. -/
theorem C1_counterexample :
    ((1 : ℚ) - 0) * 1000 ≥
        (SensorFusionEngine.mk ⟨1000⟩ (some 0)).config.handoff_delay_ms ∧
    (SensorFusionEngine.fuse ⟨⟨1000⟩, some 0⟩ 1
        (some { timestamp := 1, source := TrackingSource.CAMERA,
                motion_detected := false, confidence := 0 })
        (some { timestamp := 1, source := TrackingSource.WIFI_RSSI,
                motion_detected := true, confidence := 1/2 })).2 =
      { timestamp := 1, source := TrackingSource.CAMERA,
        motion_detected := false, confidence := 0 } ∧
    (SensorFusionEngine.fuse ⟨⟨1000⟩, some 0⟩ 1
        (some { timestamp := 1, source := TrackingSource.CAMERA,
                motion_detected := false, confidence := 0 })
        (some { timestamp := 1, source := TrackingSource.WIFI_RSSI,
                motion_detected := true, confidence := 1/2 })).2.handoff_active
      = false := by
  refine ⟨by norm_num, ?_, ?_⟩ <;> norm_num [SensorFusionEngine.fuse]

/-!
## Claim theorems — signal windows and adapters
-/

/-- C5: the adapters' shared window update keeps `length ≤ capacity` over
every push sequence; a push into a full window evicts the oldest entry
(FIFO); after pushing `capacity + 1` samples from empty, the window is
exactly the last `capacity` samples, so the first sample contributes to no
statistic (in particular not to the variance); and both the RSSI adapter
and the WiFi-monitor adapter update their windows by exactly this rule. -/
theorem C5_window_invariant (cap : Nat) :
    (∀ xs : List ℚ, (List.foldl (pushWindow cap) [] xs).length ≤ cap) ∧
    (∀ (w : List ℚ) (x : ℚ), w.length = cap → 0 < cap →
        pushWindow cap w x = w.tail ++ [x]) ∧
    (∀ (s : ℚ) (xs : List ℚ), xs.length = cap →
        List.foldl (pushWindow cap) [] (s :: xs) = xs ∧
        npVar (List.foldl (pushWindow cap) [] (s :: xs)) = npVar xs) ∧
    (∀ (m : ESP8266RSSIModule) (now : ℚ) (r : Int),
        (m.process_rssi now r).1.window =
          pushWindow m.rssi_config.window_size m.window (r : ℚ)) ∧
    (∀ (m : WiFiMonitorModule) (now : ℚ) (r : Option ℚ),
        (m.process_packet now r).1.packets =
          pushWindow m.config.packet_window m.packets (r.getD (-100))) := by
  have key : ∀ (s : ℚ) (xs : List ℚ), xs.length = cap →
      List.foldl (pushWindow cap) [] (s :: xs) = xs := by
    intro s xs hxs
    rcases Nat.eq_zero_or_pos cap with hcap | hcap
    · subst hcap
      have : xs = [] := List.length_eq_zero.mp hxs
      subst this
      simp [pushWindow]
    · have h1 : pushWindow cap [] s = [s] := by
        unfold pushWindow
        rw [if_neg (by simp; omega)]
        simp
      rw [List.foldl_cons, h1,
        foldl_pushWindow_evict cap xs [s] (by simp) (by simp; omega)
          (by simp [hxs]; omega)]
      simp
  refine ⟨?_, ?_, ?_, ?_, ?_⟩
  · intro xs
    exact foldl_pushWindow_length_le cap xs [] (by simp)
  · intro w x hw hpos
    unfold pushWindow
    rw [if_pos (by simp [hw])]
    obtain ⟨a, as, rfl⟩ := List.exists_cons_of_ne_nil
      (show w ≠ [] by intro h; rw [h] at hw; simp at hw; omega)
    simp
  · intro s xs hxs
    exact ⟨key s xs hxs, by rw [key s xs hxs]⟩
  · intro m now r
    simp only [ESP8266RSSIModule.process_rssi]
    split <;> rfl
  · intro m now r
    rfl

/-- Witness for C5 at capacity 3: five pushes keep the length at 3, a push
into a full window drops the head, and the fourth push of `[9, 1, 2, 3]`
evicts the original `9`; the adapter-link equations at a concrete module
state. -/
theorem C5_window_invariant_witness :
    (List.foldl (pushWindow 3) [] [(4 : ℚ), 5, 6, 7, 8]).length ≤ 3 ∧
    pushWindow 3 [(5 : ℚ), 6, 7] 8 = [(6 : ℚ), 7, 8] ∧
    List.foldl (pushWindow 3) [] [(9 : ℚ), 1, 2, 3] = [(1 : ℚ), 2, 3] ∧
    (ESP8266RSSIModule.process_rssi ⟨⟨3, 1⟩, [(-50 : ℚ)]⟩ 0 (-48)).1.window =
      pushWindow 3 [(-50 : ℚ)] ((-48 : Int) : ℚ) ∧
    (WiFiMonitorModule.process_packet ⟨⟨3⟩, [(-40 : ℚ)]⟩ 0 none).1.packets =
      pushWindow 3 [(-40 : ℚ)] ((none : Option ℚ).getD (-100)) :=
  ⟨(C5_window_invariant 3).1 [4, 5, 6, 7, 8],
   (C5_window_invariant 3).2.1 [5, 6, 7] 8 rfl (by norm_num),
   ((C5_window_invariant 3).2.2.1 9 [1, 2, 3] rfl).1,
   (C5_window_invariant 3).2.2.2.1 ⟨⟨3, 1⟩, [-50]⟩ 0 (-48),
   (C5_window_invariant 3).2.2.2.2 ⟨⟨3⟩, [-40]⟩ 0 none⟩

/-- C6: the coarse-signal (RSSI) adapter returns, below 5 samples in the
window after the push, a non-motion event with confidence 0 carrying only
the raw value; from 5 samples on, `motion_detected` is exactly
`variance_threshold < population variance of the window`, confidence is
`min (variance / 20) 1`, and activity is `"WALKING"` when motion else
`"STILL"`; whenever the window variance stays at or below the threshold,
`motion_detected` is `false`. -/
theorem C6_rssi_adapter (m : ESP8266RSSIModule) (now : ℚ) (rssi : Int) :
    ((pushWindow m.rssi_config.window_size m.window (rssi : ℚ)).length < 5 →
        (m.process_rssi now rssi).2 =
          { timestamp := now, source := TrackingSource.WIFI_RSSI,
            motion_detected := false, confidence := 0,
            rssi := some (rssi : ℚ) }) ∧
    (5 ≤ (pushWindow m.rssi_config.window_size m.window (rssi : ℚ)).length →
        ((m.process_rssi now rssi).2.motion_detected =
            decide (m.rssi_config.variance_threshold <
              npVar (pushWindow m.rssi_config.window_size m.window (rssi : ℚ))) ∧
         (m.process_rssi now rssi).2.confidence =
            min (npVar (pushWindow m.rssi_config.window_size m.window
              (rssi : ℚ)) / 20) 1 ∧
         (m.process_rssi now rssi).2.activity =
            (if (m.process_rssi now rssi).2.motion_detected then "WALKING"
             else "STILL"))) ∧
    (npVar (pushWindow m.rssi_config.window_size m.window (rssi : ℚ)) ≤
        m.rssi_config.variance_threshold →
      (m.process_rssi now rssi).2.motion_detected = false) := by
  refine ⟨?_, ?_, ?_⟩
  · intro h
    simp only [ESP8266RSSIModule.process_rssi]
    rw [if_pos h]
  · intro h
    simp only [ESP8266RSSIModule.process_rssi]
    rw [if_neg (not_lt.mpr h)]
    exact ⟨rfl, rfl, rfl⟩
  · intro h
    simp only [ESP8266RSSIModule.process_rssi]
    by_cases hlen :
        (pushWindow m.rssi_config.window_size m.window (rssi : ℚ)).length < 5
    · rw [if_pos hlen]
    · rw [if_neg hlen]
      simp only [decide_eq_false_iff_not, not_lt]
      exact h

/-- Witness for C6: a single sample yields the zero-confidence raw event;
five equal samples have zero window variance, hence no motion. -/
theorem C6_rssi_adapter_witness :
    (ESP8266RSSIModule.process_rssi ⟨⟨50, 3⟩, []⟩ 0 (-50)).2 =
      { timestamp := 0, source := TrackingSource.WIFI_RSSI,
        motion_detected := false, confidence := 0,
        rssi := some ((-50 : Int) : ℚ) } ∧
    (ESP8266RSSIModule.process_rssi
        ⟨⟨50, 3⟩, [(-50 : ℚ), -50, -50, -50]⟩ 0 (-50)).2.motion_detected =
      false :=
  ⟨(C6_rssi_adapter ⟨⟨50, 3⟩, []⟩ 0 (-50)).1 (by norm_num [pushWindow]),
   (C6_rssi_adapter ⟨⟨50, 3⟩, [(-50 : ℚ), -50, -50, -50]⟩ 0 (-50)).2.2
     (by norm_num [pushWindow, npVar, listMean])⟩

/-- C8: the fine-signal (CSI) adapter computes `motion_detected`,
`confidence` and `activity` from the current sample's components alone:
two calls with equal input vectors but different prior window contents and
timestamps agree on all three, and they equal the stated formulas in the
intra-sample variance `npVar v`. -/
theorem C8_csi_intra_sample (cfg : CSIConfig) (w₁ w₂ : List (List ℚ))
    (now₁ now₂ : ℚ) (v : List ℚ) :
    ((ESP32CSIModule.process_csi ⟨cfg, w₁⟩ now₁ v).2.motion_detected =
        (ESP32CSIModule.process_csi ⟨cfg, w₂⟩ now₂ v).2.motion_detected) ∧
    ((ESP32CSIModule.process_csi ⟨cfg, w₁⟩ now₁ v).2.confidence =
        (ESP32CSIModule.process_csi ⟨cfg, w₂⟩ now₂ v).2.confidence) ∧
    ((ESP32CSIModule.process_csi ⟨cfg, w₁⟩ now₁ v).2.activity =
        (ESP32CSIModule.process_csi ⟨cfg, w₂⟩ now₂ v).2.activity) ∧
    ((ESP32CSIModule.process_csi ⟨cfg, w₁⟩ now₁ v).2.motion_detected =
        decide (cfg.motion_threshold < npVar v)) ∧
    ((ESP32CSIModule.process_csi ⟨cfg, w₁⟩ now₁ v).2.confidence =
        min (npVar v / 1) 1) ∧
    ((ESP32CSIModule.process_csi ⟨cfg, w₁⟩ now₁ v).2.activity =
        (if (ESP32CSIModule.process_csi ⟨cfg, w₁⟩ now₁ v).2.motion_detected
         then "MOTION" else "CLEAR")) :=
  ⟨rfl, rfl, rfl, rfl, rfl, rfl⟩

/-!
## Claim theorems — ingestion and the websocket endpoint
-/

set_option maxRecDepth 8192 in
/-- C7 (code behaviour at the failing input): the CSI listener's guard is
`len(parts) >= 64`, so a datagram with exactly 64 comma-separated numeric
fields is NOT discarded: `parts[1:65]` yields only 63 amplitudes, the
packet is forwarded to the adapter, and the adapter's window changes —
contradicting the documented wire format (`timestamp` plus 64 amplitudes,
at least 65 fields) and the claim that such datagrams have no effect. -/
theorem C7_csi_off_by_one :
    esp32_datagram_received (List.replicate 64 (some (0 : ℚ))) =
        some (List.replicate 63 (0 : ℚ)) ∧
    (List.replicate 63 (0 : ℚ)).length = 63 ∧
    (serverCsiStep (fun _ => false) serverState0 0
        (List.replicate 64 (some (0 : ℚ)))).esp32.window =
      [List.replicate 63 (0 : ℚ)] := by
  refine ⟨by rfl, by simp, by rfl⟩

/-- Counterexample to C4 as stated: from a fresh server state, one ESP8266
`RSS:-50` datagram makes `broadcast_detection` store the raw RSSI adapter
event as `latest_detection`, so the event that `get_latest` resends has
source `wifi_rssi`, not `fusion` — the stored latest event is not always
the output of a fusion cycle. -/
theorem C4_counterexample :
    (serverRssStep (fun _ => false) serverState0 0 (-50)).hub.latest_detection.map
        (fun r => r.source) = some TrackingSource.WIFI_RSSI ∧
    (handleGetLatest (serverRssStep (fun _ => false) serverState0 0 (-50))).map
        (fun msg => msg.source) = some "wifi_rssi" ∧
    TrackingSource.WIFI_RSSI ≠ TrackingSource.FUSION := by
  refine ⟨by rfl, by rfl, by decide⟩

/-- C4 (amended): on `get_latest` the server resends the serialization of
the most recently stored `DetectionEvent`; that stored event is whatever
the last `broadcast_detection` call received — the raw per-source adapter
event on the UDP listener paths, and the fusion output on the hybrid-mode
camera path. -/
theorem C4_get_latest (s : ServerState) (r : DetectionResult)
    (h : s.hub.latest_detection = some r) :
    handleGetLatest s = some (serialize_detection_result r) ∧
    (∀ (fails : Nat → Bool) (now : ℚ) (rssi : Int),
        (serverRssStep fails s now rssi).hub.latest_detection =
          some (s.esp8266.process_rssi now rssi).2) ∧
    (∀ (fails : Nat → Bool) (now : ℚ) (cam : DetectionResult)
        (wifi : Option DetectionResult),
        (serverCameraStep fails s now cam wifi).hub.latest_detection =
          some (s.fusion.fuse now (some cam) wifi).2) := by
  refine ⟨?_, ?_, ?_⟩
  · simp [handleGetLatest, h]
  · intro fails now rssi
    rfl
  · intro fails now cam wifi
    rfl

/-- Witness for C4 (amended) at the state reached by one `RSS:-50`
datagram from a fresh server. -/
theorem C4_get_latest_witness :
    handleGetLatest (serverRssStep (fun _ => false) serverState0 0 (-50)) =
      some (serialize_detection_result
        (serverState0.esp8266.process_rssi 0 (-50)).2) :=
  (C4_get_latest (serverRssStep (fun _ => false) serverState0 0 (-50))
    (serverState0.esp8266.process_rssi 0 (-50)).2 rfl).1

/-!
## Broadcast-hub lemmas
-/

/-- A client outside the registry is never re-added and receives no
further deliveries. -/
theorem publishAll_not_mem (results : List DetectionResult) :
    ∀ (fails : Nat → Nat → Bool) (s : HubState) (i : Nat),
      i ∉ s.registry →
      i ∉ (publishAll fails results s).registry ∧
      (publishAll fails results s).inbox i = s.inbox i := by
  induction results with
  | nil => intro fails s i hi; exact ⟨hi, rfl⟩
  | cons r rs ih =>
    intro fails s i hi
    have hreg : i ∉ (broadcast_detection (fun j => fails j 0) r s).registry := by
      simp only [broadcast_detection, List.mem_filter]
      rintro ⟨h, -⟩
      exact hi h
    have hinb : (broadcast_detection (fun j => fails j 0) r s).inbox i =
        s.inbox i := by
      simp only [broadcast_detection]
      rw [if_neg]
      rintro ⟨h, -⟩
      exact hi h
    obtain ⟨h1, h2⟩ := ih (fun a b => fails a (b + 1)) _ i hreg
    exact ⟨h1, by simp only [publishAll]; rw [h2, hinb]⟩

/-- A client all of whose sends succeed stays registered and receives
every published event, in publish order, whatever the other clients do. -/
theorem publishAll_live (results : List DetectionResult) :
    ∀ (fails : Nat → Nat → Bool) (s : HubState) (i : Nat),
      i ∈ s.registry →
      (∀ j, j < results.length → fails i j = false) →
      i ∈ (publishAll fails results s).registry ∧
      (publishAll fails results s).inbox i =
        s.inbox i ++ results.map serialize_detection_result := by
  induction results with
  | nil => intro fails s i hi _; exact ⟨hi, by simp [publishAll]⟩
  | cons r rs ih =>
    intro fails s i hi hf
    have h0 : fails i 0 = false := hf 0 (by simp)
    have hreg : i ∈ (broadcast_detection (fun j => fails j 0) r s).registry := by
      simp only [broadcast_detection, List.mem_filter]
      exact ⟨hi, by simp [h0]⟩
    have hinb : (broadcast_detection (fun j => fails j 0) r s).inbox i =
        s.inbox i ++ [serialize_detection_result r] := by
      simp only [broadcast_detection]
      rw [if_pos ⟨hi, h0⟩]
    obtain ⟨h1, h2⟩ := ih (fun a b => fails a (b + 1)) _ i hreg
      (fun j hj => hf (j + 1) (by simp only [List.length_cons]; omega))
    refine ⟨h1, ?_⟩
    simp only [publishAll]
    rw [h2, hinb]
    simp

/-- A client whose send first fails on publish `k` is removed there, is
never retried, and has received exactly the first `k` events. -/
theorem publishAll_failed (results : List DetectionResult) :
    ∀ (fails : Nat → Nat → Bool) (s : HubState) (i : Nat) (k : Nat),
      i ∈ s.registry → k < results.length →
      (∀ j, j < k → fails i j = false) → fails i k = true →
      i ∉ (publishAll fails results s).registry ∧
      (publishAll fails results s).inbox i =
        s.inbox i ++ (results.take k).map serialize_detection_result := by
  induction results with
  | nil => intro fails s i k _ hk _ _; exact absurd hk (by simp)
  | cons r rs ih =>
    intro fails s i k hi hk hbef hfk
    cases k with
    | zero =>
      have hreg : i ∉ (broadcast_detection (fun j => fails j 0) r s).registry := by
        simp only [broadcast_detection, List.mem_filter]
        rintro ⟨-, hb⟩
        simp [hfk] at hb
      have hinb : (broadcast_detection (fun j => fails j 0) r s).inbox i =
          s.inbox i := by
        simp only [broadcast_detection]
        rw [if_neg]
        rintro ⟨-, hb⟩
        rw [hfk] at hb
        cases hb
      obtain ⟨h1, h2⟩ := publishAll_not_mem rs (fun a b => fails a (b + 1)) _ i hreg
      exact ⟨h1, by simp only [publishAll]; rw [h2, hinb]; simp⟩
    | succ n =>
      have h0 : fails i 0 = false := hbef 0 (Nat.succ_pos _)
      have hreg : i ∈ (broadcast_detection (fun j => fails j 0) r s).registry := by
        simp only [broadcast_detection, List.mem_filter]
        exact ⟨hi, by simp [h0]⟩
      have hinb : (broadcast_detection (fun j => fails j 0) r s).inbox i =
          s.inbox i ++ [serialize_detection_result r] := by
        simp only [broadcast_detection]
        rw [if_pos ⟨hi, h0⟩]
      obtain ⟨h1, h2⟩ := ih (fun a b => fails a (b + 1)) _ i n hreg
        (by simp only [List.length_cons] at hk; omega)
        (fun j hj => hbef (j + 1) (by omega)) hfk
      refine ⟨h1, ?_⟩
      simp only [publishAll]
      rw [h2, hinb]
      simp

/-- Deliveries to a given client depend only on that client's own send
outcomes: two runs over the same events and start state whose failure
patterns agree on client `i` give `i` the same final membership and the
same inbox. -/
theorem publishAll_local (results : List DetectionResult) :
    ∀ (fails₁ fails₂ : Nat → Nat → Bool) (s₁ s₂ : HubState) (i : Nat),
      (∀ j, fails₁ i j = fails₂ i j) →
      (i ∈ s₁.registry ↔ i ∈ s₂.registry) →
      s₁.inbox i = s₂.inbox i →
      ((i ∈ (publishAll fails₁ results s₁).registry ↔
        i ∈ (publishAll fails₂ results s₂).registry) ∧
       (publishAll fails₁ results s₁).inbox i =
        (publishAll fails₂ results s₂).inbox i) := by
  induction results with
  | nil => intro _ _ _ _ _ _ hreg hinb; exact ⟨hreg, hinb⟩
  | cons r rs ih =>
    intro fails₁ fails₂ s₁ s₂ i hf hreg hinb
    have hstep_reg :
        (i ∈ (broadcast_detection (fun j => fails₁ j 0) r s₁).registry ↔
         i ∈ (broadcast_detection (fun j => fails₂ j 0) r s₂).registry) := by
      simp only [broadcast_detection, List.mem_filter]
      rw [hf 0]
      exact and_congr hreg Iff.rfl
    have hstep_inb :
        (broadcast_detection (fun j => fails₁ j 0) r s₁).inbox i =
        (broadcast_detection (fun j => fails₂ j 0) r s₂).inbox i := by
      simp only [broadcast_detection]
      by_cases hc : i ∈ s₂.registry ∧ fails₂ i 0 = false
      · rw [if_pos hc, if_pos ⟨hreg.mpr hc.1, by rw [hf 0]; exact hc.2⟩, hinb]
      · rw [if_neg hc,
          if_neg (fun hc1 => hc ⟨hreg.mp hc1.1, by rw [← hf 0]; exact hc1.2⟩),
          hinb]
    exact ih _ _ _ _ i (fun j => hf (j + 1)) hstep_reg hstep_inb

/-- C9: publishing a sequence of events delivers every event, in original
order, to every client whose sends all succeed; a client whose send first
fails on publish `k` is removed from the registry, is never retried,
receives exactly the first `k` events and nothing after; and a client's
deliveries and final membership depend only on its own send outcomes, so
another subscriber's failure cannot skip, reorder or block them. -/
theorem C9_broadcast_delivery (results : List DetectionResult)
    (fails : Nat → Nat → Bool) (s : HubState) (i : Nat) :
    (i ∈ s.registry → (∀ j, j < results.length → fails i j = false) →
        i ∈ (publishAll fails results s).registry ∧
        (publishAll fails results s).inbox i =
          s.inbox i ++ results.map serialize_detection_result) ∧
    (∀ k, i ∈ s.registry → k < results.length →
        (∀ j, j < k → fails i j = false) → fails i k = true →
        i ∉ (publishAll fails results s).registry ∧
        (publishAll fails results s).inbox i =
          s.inbox i ++ (results.take k).map serialize_detection_result) ∧
    (∀ fails₂ : Nat → Nat → Bool, (∀ j, fails i j = fails₂ i j) →
        ((i ∈ (publishAll fails results s).registry ↔
          i ∈ (publishAll fails₂ results s).registry) ∧
         (publishAll fails results s).inbox i =
          (publishAll fails₂ results s).inbox i)) :=
  ⟨fun hi hf => publishAll_live results fails s i hi hf,
   fun k hi hk hb hf => publishAll_failed results fails s i k hi hk hb hf,
   fun fails₂ hf => publishAll_local results fails fails₂ s s i hf Iff.rfl rfl⟩

/-- Witness for C9: client `1` survives and receives both events in
order; client `2` is removed on its first failure and receives nothing. -/
theorem C9_broadcast_delivery_witness :
    (1 ∈ (publishAll failsW [evW1, evW2] hub0).registry ∧
     (publishAll failsW [evW1, evW2] hub0).inbox 1 =
       hub0.inbox 1 ++ [evW1, evW2].map serialize_detection_result) ∧
    (2 ∉ (publishAll failsW [evW1, evW2] hub0).registry ∧
     (publishAll failsW [evW1, evW2] hub0).inbox 2 =
       hub0.inbox 2 ++ ([evW1, evW2].take 0).map serialize_detection_result) :=
  ⟨(C9_broadcast_delivery [evW1, evW2] failsW hub0 1).1 (by decide)
     (by decide),
   (C9_broadcast_delivery [evW1, evW2] failsW hub0 2).2.1 0 (by decide)
     (by decide) (by decide) (by decide)⟩

/-!
## Claim theorems — in-place mutation in `fuse`
-/

/-- `fuseM` never clears the handoff tags: any valid heap object already
carrying `handoff_active`, `out_of_frame` and a FUSION source keeps all
three through any later fusion cycle (the vision branch only overwrites
`source` with FUSION; the handoff branch only sets the tags; the LOST
branch allocates a fresh object). -/
theorem fuseM_preserves_tagged (e : SensorFusionEngine) (now : ℚ) (h : Heap)
    (cam wifi : Option Nat) (r : Nat) (hr : r < h.next)
    (h1 : (h.data r).handoff_active = true)
    (h2 : (h.data r).out_of_frame = true)
    (h3 : (h.data r).source = TrackingSource.FUSION) :
    ((e.fuseM now h cam wifi).2.1.data r).handoff_active = true ∧
    ((e.fuseM now h cam wifi).2.1.data r).out_of_frame = true ∧
    ((e.fuseM now h cam wifi).2.1.data r).source = TrackingSource.FUSION := by
  cases cam with
  | none =>
    cases wifi with
    | some w2 => exact ⟨h1, h2, h3⟩
    | none =>
      have hne : r ≠ h.next := Nat.ne_of_lt hr
      refine ⟨?_, ?_, ?_⟩ <;>
        simp [SensorFusionEngine.fuseM, Heap.alloc, hne, h1, h2, h3]
  | some cref =>
    rcases Bool.eq_false_or_eq_true ((h.data cref).motion_detected) with hm | hm
    · by_cases hrc : r = cref
      · subst hrc
        refine ⟨?_, ?_, ?_⟩ <;>
          simp [SensorFusionEngine.fuseM, Heap.set, hm, h1, h2, h3]
      · refine ⟨?_, ?_, ?_⟩ <;>
          simp [SensorFusionEngine.fuseM, Heap.set, hm, hrc, h1, h2, h3]
    · by_cases htime :
          (now - e.handoff_start.getD now) * 1000 > e.config.handoff_delay_ms
      · cases wifi with
        | some w2 =>
          rcases Bool.eq_false_or_eq_true ((h.data w2).motion_detected) with
            hw | hw
          · by_cases hrw : r = w2
            · subst hrw
              refine ⟨?_, ?_, ?_⟩ <;>
                simp [SensorFusionEngine.fuseM, Heap.set, hm, htime, hw]
            · refine ⟨?_, ?_, ?_⟩ <;>
                simp [SensorFusionEngine.fuseM, Heap.set, hm, htime, hw, hrw,
                  h1, h2, h3]
          · refine ⟨?_, ?_, ?_⟩ <;>
              simp [SensorFusionEngine.fuseM, hm, htime, hw, h1, h2, h3]
        | none =>
          refine ⟨?_, ?_, ?_⟩ <;>
            simp [SensorFusionEngine.fuseM, hm, htime, h1, h2, h3]
      · cases wifi with
        | some w2 =>
          refine ⟨?_, ?_, ?_⟩ <;>
            simp [SensorFusionEngine.fuseM, hm, htime, h1, h2, h3]
        | none =>
          refine ⟨?_, ?_, ?_⟩ <;>
            simp [SensorFusionEngine.fuseM, hm, htime, h1, h2, h3]

/-- C10: `fuse` returns its input object itself, mutated in place.  At the
heap level: when the vision branch fires the returned reference IS the
vision argument's reference and the caller's vision object now has
`source = FUSION`; when the handoff branch fires the returned reference IS
the WiFi argument's reference and the caller's cached WiFi object now has
`handoff_active = true`, `out_of_frame = true` and `source = FUSION`; and
no later `fuse` cycle ever clears those tags on any valid object, so they
remain set on that object in all later cycles that reuse it. -/
theorem C10_fuse_in_place (e : SensorFusionEngine) (now t : ℚ) (h : Heap)
    (c w : Nat) :
    ((h.data c).motion_detected = true →
        (e.fuseM now h (some c) (some w)).2.2 = c ∧
        (e.fuseM now h (some c) (some w)).2.1.data c =
          { h.data c with source := TrackingSource.FUSION }) ∧
    ((h.data c).motion_detected = false → e.handoff_start = some t →
        e.config.handoff_delay_ms < (now - t) * 1000 →
        (h.data w).motion_detected = true →
        (e.fuseM now h (some c) (some w)).2.2 = w ∧
        (e.fuseM now h (some c) (some w)).2.1.data w =
          { h.data w with handoff_active := true, out_of_frame := true,
                          source := TrackingSource.FUSION }) ∧
    (∀ (cam wifi : Option Nat) (r : Nat), r < h.next →
        (h.data r).handoff_active = true →
        (h.data r).out_of_frame = true →
        (h.data r).source = TrackingSource.FUSION →
        (((e.fuseM now h cam wifi).2.1.data r).handoff_active = true ∧
         ((e.fuseM now h cam wifi).2.1.data r).out_of_frame = true ∧
         ((e.fuseM now h cam wifi).2.1.data r).source =
           TrackingSource.FUSION)) := by
  refine ⟨?_, ?_, ?_⟩
  · intro hm
    constructor
    · simp [SensorFusionEngine.fuseM, hm]
    · simp [SensorFusionEngine.fuseM, hm, Heap.set]
  · intro hm hhs hgt hw
    constructor
    · simp [SensorFusionEngine.fuseM, hm, hhs, hgt, hw]
    · simp [SensorFusionEngine.fuseM, hm, hhs, hgt, hw, Heap.set]
  · intro cam wifi r hr h1 h2 h3
    exact fuseM_preserves_tagged e now h cam wifi r hr h1 h2 h3

/-- Witness for C10 on `heapW`: the vision branch returns reference 0
itself and re-tags the object at 0; the handoff branch returns reference 2
itself and tags the object at 2; a later cycle leaves the tags on object 3
untouched. -/
theorem C10_fuse_in_place_witness :
    ((SensorFusionEngine.fuseM ⟨⟨1000⟩, some 0⟩ 2 heapW (some 0)
        (some 2)).2.2 = 0 ∧
     (SensorFusionEngine.fuseM ⟨⟨1000⟩, some 0⟩ 2 heapW (some 0)
        (some 2)).2.1.data 0 =
       { heapW.data 0 with source := TrackingSource.FUSION }) ∧
    ((SensorFusionEngine.fuseM ⟨⟨1000⟩, some 0⟩ 2 heapW (some 1)
        (some 2)).2.2 = 2 ∧
     (SensorFusionEngine.fuseM ⟨⟨1000⟩, some 0⟩ 2 heapW (some 1)
        (some 2)).2.1.data 2 =
       { heapW.data 2 with handoff_active := true, out_of_frame := true,
                           source := TrackingSource.FUSION }) ∧
    (((SensorFusionEngine.fuseM ⟨⟨1000⟩, some 0⟩ 2 heapW (some 1)
        (some 2)).2.1.data 3).handoff_active = true ∧
     ((SensorFusionEngine.fuseM ⟨⟨1000⟩, some 0⟩ 2 heapW (some 1)
        (some 2)).2.1.data 3).out_of_frame = true ∧
     ((SensorFusionEngine.fuseM ⟨⟨1000⟩, some 0⟩ 2 heapW (some 1)
        (some 2)).2.1.data 3).source = TrackingSource.FUSION) :=
  ⟨(C10_fuse_in_place ⟨⟨1000⟩, some 0⟩ 2 0 heapW 0 2).1 rfl,
   (C10_fuse_in_place ⟨⟨1000⟩, some 0⟩ 2 0 heapW 1 2).2.1 rfl rfl
     (by norm_num) rfl,
   (C10_fuse_in_place ⟨⟨1000⟩, some 0⟩ 2 0 heapW 1 2).2.2 (some 1) (some 2) 3
     (by norm_num [heapW]) rfl rfl rfl⟩
